import Mathlib

/-!
Verification development for the `intro_runtime` OptiX path-tracing demo
(`src/apps/intro_runtime/src/Application.cpp`).

The definitions below are a shallow embedding of the host-side state handled
by `Application`: the instance list and its shader-binding-table (SBT)
offsets, the hit-group record array with its header/payload split, the light
definition array, the GUI-to-device material conversion, the accumulation
loop of `render()` / `restartAccumulation()`, and the module loader
`readData()`.

Modelling conventions:
* device pointers (`CUdeviceptr`) are abstract allocation identifiers (`Nat`),
  handed out by a monotone counter, mirroring `cudaMalloc` returning distinct
  addresses;
* a packed SBT record header (the opaque blob written by
  `optixSbtRecordPackHeader(programGroups[pid], ...)`) is identified with the
  program identifier `pid` it was packed from;
* `float` scalars are embedded as `ℚ`; the C math-library functions `logf`
  and `sqrtf` that the code calls are external to the translated unit, so
  `logf` is a function parameter of the material conversion and the length
  computation uses an exact rational square root (exact on the perfect
  squares the scene produces);
* the enum headers (`NUM_RAYTYPES`, `ProgramIdentifier`, `LightType`,
  `RT_DEFAULT_MAX`, `FLAG_THINWALLED`) are declared outside this translation
  unit; their values are modelled from the spec's fixed catalog in the order
  the translation unit uses them.
-/

namespace IntroRuntime

/-- Ray type count. Modelled from the spec: the fixed ray-type count R = 2
(radiance and shadow); the enum lives in a header outside the embedded
translation unit. -/
def NUM_RAYTYPES : Nat := 2

/-- Radiance ray type index (first of the per-instance record pair). -/
def RAYTYPE_RADIANCE : Nat := 0

/-- Shadow ray type index (second of the per-instance record pair). -/
def RAYTYPE_SHADOW : Nat := 1

/-- Modelled from the spec: the fixed enumerated catalog of program
identifiers (raygen, exception, miss x2, hit x4, callables), in the order the
translation unit populates `programGroupDescriptions`; the enum header is
outside the embedded translation unit. -/
def PROGRAM_ID_RAYGENERATION : Nat := 0

def PROGRAM_ID_EXCEPTION : Nat := 1

def PROGRAM_ID_MISS_RADIANCE : Nat := 2

def PROGRAM_ID_MISS_SHADOW : Nat := 3

def PROGRAM_ID_HIT_RADIANCE : Nat := 4

def PROGRAM_ID_HIT_SHADOW : Nat := 5

def PROGRAM_ID_HIT_RADIANCE_CUTOUT : Nat := 6

def PROGRAM_ID_HIT_SHADOW_CUTOUT : Nat := 7

def PROGRAM_ID_LENS_PINHOLE : Nat := 8

def PROGRAM_ID_LENS_FISHEYE : Nat := 9

def PROGRAM_ID_LENS_SPHERE : Nat := 10

def PROGRAM_ID_LIGHT_ENV : Nat := 11

def PROGRAM_ID_LIGHT_PARALLELOGRAM : Nat := 12

def PROGRAM_ID_BRDF_DIFFUSE_SAMPLE : Nat := 13

def PROGRAM_ID_BRDF_DIFFUSE_EVAL : Nat := 14

def PROGRAM_ID_BRDF_SPECULAR_SAMPLE : Nat := 15

def PROGRAM_ID_BRDF_SPECULAR_EVAL : Nat := 16

def PROGRAM_ID_BSDF_SPECULAR_SAMPLE : Nat := 17

def PROGRAM_ID_BSDF_SPECULAR_EVAL : Nat := 18

/-- Number of entries of the program identifier catalog. -/
def NUM_PROGRAM_IDENTIFIERS : Nat := 19

/-- Modelled from the spec: light type tag for environment lights
(`LIGHT_ENVIRONMENT` in the header outside the embedded translation unit). -/
def LIGHT_ENVIRONMENT : Nat := 0

/-- Modelled from the spec: light type tag for parallelogram area lights. -/
def LIGHT_PARALLELOGRAM : Nat := 1

/-- Modelled from the spec: the defined maximum sentinel used instead of
`-logf(0)` in the absorption conversion (`RT_DEFAULT_MAX`, defined as
`1.e27f` in a header outside the embedded translation unit). -/
def RT_DEFAULT_MAX : ℚ := 10 ^ 27

/-- Modelled from the spec: the thin-walled material flag bit
(`FLAG_THINWALLED`, from a header outside the embedded translation unit). -/
def FLAG_THINWALLED : Nat := 32

/-- Rational stand-in for the float constant `M_PIf`; only used in the
(unused, per the code comment) `area` field of environment lights. -/
def M_PIf : ℚ := 3.1415927

/-- The `float3` type, embedded with exact rational components. -/
abbrev Vec3 := ℚ × ℚ × ℚ

/-- The `cross` function from the vector math header, as used by `createLights`. -/
def cross (a b : Vec3) : Vec3 :=
  (a.2.1 * b.2.2 - a.2.2 * b.2.1,
   a.2.2 * b.1 - a.1 * b.2.2,
   a.1 * b.2.1 - a.2.1 * b.1)

/-- Squared Euclidean length of a `Vec3`. -/
def lengthSq (v : Vec3) : ℚ :=
  v.1 * v.1 + v.2.1 * v.2.1 + v.2.2 * v.2.2

/-- Integer square root by counting (kernel-reducible): the number of
`k ∈ [0, n]` with `k * k ≤ n` is `⌊√n⌋ + 1`. -/
def natSqrt (n : Nat) : Nat :=
  ((List.range (n + 1)).filter fun k => k * k ≤ n).length - 1

/-- Exact rational square root: agrees with the Euclidean square root whenever
the argument is a perfect square of a rational, which is the case for every
length the embedded scene computes. -/
def ratSqrt (q : ℚ) : ℚ :=
  (natSqrt q.num.toNat : ℚ) / (natSqrt q.den : ℚ)

/-- The `length` function from the vector math header (`sqrtf` of the squared length). -/
def vlength (v : Vec3) : ℚ := ratSqrt (lengthSq v)

/-- Componentwise `float3 * float` as used in `dst.absorption = make_float3(x, y, z) * src.volumeDistanceScale`. -/
def scaleV (v : Vec3) (k : ℚ) : Vec3 := (v.1 * k, v.2.1 * k, v.2.2 * k)

/-- Structure `GeometryData`: device buffers and BLAS bookkeeping recorded by
`createGeometry` (tracked in `m_geometries`). -/
structure GeometryData where
  indices : Nat
  attributes : Nat
  numIndices : Nat
  numAttributes : Nat
  gas : Nat
deriving DecidableEq, Inhabited

/-- Structure `OptixInstance` as populated in `initPipeline` / `createLights`. -/
structure OptixInstance where
  transform : List ℚ
  instanceId : Nat
  visibilityMask : Nat
  sbtOffset : Nat
  flags : Nat
  traversableHandle : Nat
deriving DecidableEq, Inhabited

/-- Structure `LightDefinition` as populated in `createLights`. -/
structure LightDefinition where
  type : Nat
  position : Vec3
  vecU : Vec3
  vecV : Vec3
  normal : Vec3
  area : ℚ
  emission : Vec3
deriving DecidableEq, Inhabited

/-- GUI-side material parameters (`MaterialParameterGUI`). -/
structure MaterialParameterGUI where
  indexBSDF : Nat
  albedo : Vec3
  useAlbedoTexture : Bool
  useCutoutTexture : Bool
  thinwalled : Bool
  absorptionColor : Vec3
  volumeDistanceScale : ℚ
  ior : ℚ
deriving DecidableEq, Inhabited

/-- Device-side material parameters (`MaterialParameter`), produced by
`updateMaterialParameters`. -/
structure MaterialParameter where
  indexBSDF : Nat
  albedo : Vec3
  textureAlbedo : Nat
  textureCutout : Nat
  flags : Nat
  absorption : Vec3
  ior : ℚ
deriving DecidableEq, Inhabited

/-- Structure `SbtRecordGeometryInstanceData`: one packed hit-group record. The
`header` field stands for the `OPTIX_SBT_RECORD_HEADER_SIZE` opaque blob
(identified with the program id it was packed from); the remaining fields are
the `GeometryInstanceData` payload. -/
structure SbtRecordGeometryInstanceData where
  header : Nat
  indices : Nat
  attributes : Nat
  materialIndex : Int
  lightIndex : Int
deriving DecidableEq, Inhabited

/-- Host-side `Application` state relevant to scene/SBT construction:
`m_geometries`, `m_instances`, `m_lightDefinitions`,
`m_guiMaterialParameters`, the host hit-group record array
`m_sbtRecordGeometryInstanceData` together with its device mirror
`m_d_sbtRecordGeometryInstanceData`, and the `m_sbt` record counts.
`nextPtr` is the abstract `cudaMalloc` allocation counter. -/
structure AppState where
  missID : Nat
  lightID : Bool
  nextPtr : Nat
  geometries : List GeometryData
  instances : List OptixInstance
  lightDefinitions : List LightDefinition
  guiMaterialParameters : List MaterialParameterGUI
  sbtHost : List SbtRecordGeometryInstanceData
  sbtDevice : List SbtRecordGeometryInstanceData
  hitgroupRecordCount : Nat
  callablesRecordCount : Nat
deriving DecidableEq, Inhabited

/-- The `Application` constructor state: option-selected `m_missID` /
`m_lightID`, all containers empty. -/
def initialApp (missID : Nat) (lightID : Bool) : AppState :=
  { missID := missID
    lightID := lightID
    nextPtr := 0
    geometries := []
    instances := []
    lightDefinitions := []
    guiMaterialParameters := []
    sbtHost := []
    sbtDevice := []
    hitgroupRecordCount := 0
    callablesRecordCount := 0 }

/-- Function `Application::createGeometry`: allocates the attribute, index and GAS
output buffers, records a `GeometryData` in `m_geometries`, and returns the
traversable handle (identified with the GAS buffer allocation). -/
def createGeometry (s : AppState) (numAttributes numIndices : Nat) :
    AppState × Nat :=
  let d_attributes := s.nextPtr
  let d_indices := s.nextPtr + 1
  let d_gas := s.nextPtr + 2
  let geometry : GeometryData :=
    { indices := d_indices
      attributes := d_attributes
      numIndices := numIndices
      numAttributes := numAttributes
      gas := d_gas }
  ({ s with nextPtr := s.nextPtr + 3
            geometries := s.geometries ++ [geometry] }, d_gas)

/-- Modelled from the spec: the plane mesh generator (outside the embedded
translation unit) produces a tessellated grid; only the identity of the
buffers created through `createGeometry` matters to the SBT claims, so the
vertex/index counts are schematic. -/
def createPlane (s : AppState) (tessU tessV upAxis : Nat) : AppState × Nat :=
  let _ := upAxis
  createGeometry s ((tessU + 1) * (tessV + 1)) (tessU * tessV * 6)

/-- Modelled from the spec: the box mesh generator (outside the embedded
translation unit); 24 vertices, 36 indices. -/
def createBox (s : AppState) : AppState × Nat :=
  createGeometry s 24 36

/-- Modelled from the spec: the sphere mesh generator (outside the embedded
translation unit); vertex/index counts are schematic in the tessellation. -/
def createSphere (s : AppState) (tessU tessV : Nat) (radius maxTheta : ℚ) :
    AppState × Nat :=
  let _ := radius
  let _ := maxTheta
  createGeometry s (tessU * tessV) (6 * tessU * (tessV - 1))

/-- Modelled from the spec: the torus mesh generator (outside the embedded
translation unit); vertex/index counts are schematic in the tessellation. -/
def createTorus (s : AppState) (tessU tessV : Nat) (innerRadius outerRadius : ℚ) :
    AppState × Nat :=
  let _ := innerRadius
  let _ := outerRadius
  createGeometry s ((tessU + 1) * (tessV + 1)) (6 * tessU * tessV)

/-- Modelled from the spec: the parallelogram mesh generator (outside the
embedded translation unit); 4 vertices, 6 indices. -/
def createParallelogram (s : AppState) (position vecU vecV normal : Vec3) :
    AppState × Nat :=
  let _ := position
  let _ := vecU
  let _ := vecV
  let _ := normal
  createGeometry s 4 6

/-- The repeated instance-push pattern of `initPipeline` / `createLights`:
`instanceId = id`, `visibilityMask = 255`,
`sbtOffset = id * NUM_RAYTYPES` with `id = m_instances.size()`. -/
def mkInstance (insts : List OptixInstance) (transform : List ℚ)
    (handle : Nat) : OptixInstance :=
  { transform := transform
    instanceId := insts.length
    visibilityMask := 255
    sbtOffset := insts.length * NUM_RAYTYPES
    flags := 0
    traversableHandle := handle }

/-- Pushes one instance with the `mkInstance` pattern. -/
def pushInstance (s : AppState) (transform : List ℚ) (handle : Nat) :
    AppState :=
  { s with instances := s.instances ++ [mkInstance s.instances transform handle] }

/-- The `LightDefinition` local variable at the top of `createLights`
(fields unused by environment lights). -/
def lightBase : LightDefinition :=
  { type := 0
    position := (0, 0, 0)
    vecU := (1, 0, 0)
    vecV := (0, 1, 0)
    normal := (0, 0, 1)
    area := 1
    emission := (1, 1, 1) }

/-- The environment light pushed by the `switch (m_missID)` in
`createLights` for `m_missID` 1 and 2 (type and area identical in both
branches; the HDR texture load of case 2 is external). -/
def envLight : LightDefinition :=
  { lightBase with type := LIGHT_ENVIRONMENT, area := 4 * M_PIf }

/-- The `switch (m_missID)` of `createLights`: case 1 and case 2 push the
environment light, case 0 and the default push nothing. -/
def envLightsFor (missID : Nat) : List LightDefinition :=
  match missID with
  | 1 => [envLight]
  | 2 => [envLight]
  | _ => []

/-- The parallelogram area light of `createLights` (corner position,
edge vectors, area from the cross product, normalized normal). -/
def parallelogramLight : LightDefinition :=
  let vecU : Vec3 := (4, 0, 0)
  let vecV : Vec3 := (0, 0, 4)
  let n := cross vecU vecV
  let area := vlength n
  { type := LIGHT_PARALLELOGRAM
    position := (-2, 4, -2)
    vecU := vecU
    vecV := vecV
    normal := (n.1 / area, n.2.1 / area, n.2.2 / area)
    area := area
    emission := (10, 10, 10) }

/-- Identity transform of the parallelogram light instance. -/
def trafoLight : List ℚ := [1, 0, 0, 0, 0, 1, 0, 0, 0, 0, 1, 0]

/-- Function `Application::createLights`: pushes the environment light selected by
`m_missID`, then, when `m_lightID` is set, pushes the parallelogram light
definition, builds its geometry, and appends the corresponding instance. -/
def createLights (s : AppState) : AppState :=
  let s := { s with lightDefinitions := s.lightDefinitions ++ envLightsFor s.missID }
  if s.lightID then
    let s := { s with lightDefinitions := s.lightDefinitions ++ [parallelogramLight] }
    let (s, geoLight) := createParallelogram s parallelogramLight.position
        parallelogramLight.vecU parallelogramLight.vecV parallelogramLight.normal
    pushInstance s trafoLight geoLight
  else s

/-- The radiance-ray hit record for instance `i` as written by the
population loop of `initPipeline` (header chosen by the material's
`useCutoutTexture`, payload from `m_geometries[i]`, `materialIndex = i`,
`lightIndex = -1`). -/
def hitRecordRadiance (gui : List MaterialParameterGUI)
    (geos : List GeometryData) (i : Nat) : SbtRecordGeometryInstanceData :=
  { header := if !(gui.getD i default).useCutoutTexture then
        PROGRAM_ID_HIT_RADIANCE else PROGRAM_ID_HIT_RADIANCE_CUTOUT
    indices := (geos.getD i default).indices
    attributes := (geos.getD i default).attributes
    materialIndex := (i : Int)
    lightIndex := -1 }

/-- The shadow-ray hit record for instance `i` as written by the population
loop of `initPipeline`. -/
def hitRecordShadow (gui : List MaterialParameterGUI)
    (geos : List GeometryData) (i : Nat) : SbtRecordGeometryInstanceData :=
  { header := if !(gui.getD i default).useCutoutTexture then
        PROGRAM_ID_HIT_SHADOW else PROGRAM_ID_HIT_SHADOW_CUTOUT
    indices := (geos.getD i default).indices
    attributes := (geos.getD i default).attributes
    materialIndex := (i : Int)
    lightIndex := -1 }

/-- The `for (int i = 0; i < numInstances; ++i)` population loop of
`initPipeline`: record `i * NUM_RAYTYPES` is the radiance record, record
`i * NUM_RAYTYPES + 1` the shadow record. -/
def sbtHitRecordsBase (gui : List MaterialParameterGUI)
    (geos : List GeometryData) : Nat → List SbtRecordGeometryInstanceData
  | 0 => []
  | n + 1 => sbtHitRecordsBase gui geos n ++
      [hitRecordRadiance gui geos n, hitRecordShadow gui geos n]

/-- In-place record mutation helper: `l` with entry `i` replaced by
`f l[i]` (no-op out of bounds). -/
def modifyAt (l : List SbtRecordGeometryInstanceData) (i : Nat)
    (f : SbtRecordGeometryInstanceData → SbtRecordGeometryInstanceData) :
    List SbtRecordGeometryInstanceData :=
  l.set i (f (l.getD i default))

/-- The full initial hit-group record array of `initPipeline`: the
population loop followed by the `if (m_lightID)` fix-up that overwrites the
`lightIndex` of the last instance's two records with
`(m_missID != 0) ? 1 : 0`. -/
def sbtHitRecordsInit (gui : List MaterialParameterGUI)
    (geos : List GeometryData) (numInstances : Nat) (lightID : Bool)
    (missID : Nat) : List SbtRecordGeometryInstanceData :=
  let base := sbtHitRecordsBase gui geos numInstances
  if lightID then
    let idx := (numInstances - 1) * NUM_RAYTYPES
    let lightIndex : Int := if missID ≠ 0 then 1 else 0
    modifyAt (modifyAt base idx (fun r => { r with lightIndex := lightIndex }))
      (idx + 1) (fun r => { r with lightIndex := lightIndex })
  else base

/-- The transforms of the five fixed scene instances of `initPipeline`. -/
def trafoPlane : List ℚ := [8, 0, 0, 0, 0, 8, 0, 0, 0, 0, 8, 0]

def trafoBox : List ℚ := [1, 0, 0, -5/2, 0, 1, 0, 5/4, 0, 0, 1, 0]

def trafoNested : List ℚ := [3/4, 0, 0, -5/2, 0, 3/4, 0, 5/4, 0, 0, 3/4, 0]

def trafoSphere : List ℚ := [1, 0, 0, 0, 0, 1, 0, 5/4, 0, 0, 1, 0]

def trafoTorus : List ℚ := [1, 0, 0, 5/2, 0, 1, 0, 5/4, 0, 0, 1, 0]

/-- Function `Application::initPipeline`, restricted to the state this development
tracks: builds the five fixed geometries and their instances, calls
`createLights`, then populates the hit-group record array (host array and
its device copy) and the `m_sbt` record counts. Module/program-group
compilation, stack sizes and the acceleration-structure builds act on
external handles only. -/
def initPipeline (s : AppState) : AppState :=
  let (s, geoPlane) := createPlane s 1 1 1
  let s := pushInstance s trafoPlane geoPlane
  let (s, geoBox) := createBox s
  let s := pushInstance s trafoBox geoBox
  let (s, geoNested) := createSphere s 180 90 1 M_PIf
  let s := pushInstance s trafoNested geoNested
  let (s, geoSphere) := createSphere s 180 90 1 M_PIf
  let s := pushInstance s trafoSphere geoSphere
  let (s, geoTorus) := createTorus s 180 180 (3/4) (1/4)
  let s := pushInstance s trafoTorus geoTorus
  let s := createLights s
  let numInstances := s.instances.length
  let records := sbtHitRecordsInit s.guiMaterialParameters s.geometries
      numInstances s.lightID s.missID
  { s with sbtHost := records
           sbtDevice := records
           hitgroupRecordCount := NUM_RAYTYPES * numInstances
           callablesRecordCount := NUM_PROGRAM_IDENTIFIERS - PROGRAM_ID_LENS_PINHOLE }

/-- The six GUI materials pushed by `Application::initMaterials`, in
instance-id order (floor, water box, glass sphere, cutout lambert, mirror,
black light material). -/
def initMaterials (s : AppState) : AppState :=
  { s with guiMaterialParameters :=
      [ { indexBSDF := 0, albedo := (1/2, 1/2, 1/2), useAlbedoTexture := true
          useCutoutTexture := false, thinwalled := false
          absorptionColor := (1, 1, 1), volumeDistanceScale := 1, ior := 3/2 },
        { indexBSDF := 2, albedo := (1, 1, 1), useAlbedoTexture := false
          useCutoutTexture := false, thinwalled := false
          absorptionColor := (3/4, 3/4, 19/20), volumeDistanceScale := 1, ior := 133/100 },
        { indexBSDF := 2, albedo := (1, 1, 1), useAlbedoTexture := false
          useCutoutTexture := false, thinwalled := false
          absorptionColor := (1/2, 3/4, 1/2), volumeDistanceScale := 1, ior := 38/25 },
        { indexBSDF := 0, albedo := (3/4, 3/4, 3/4), useAlbedoTexture := false
          useCutoutTexture := true, thinwalled := true
          absorptionColor := (980392/1000000, 729412/1000000, 470588/1000000)
          volumeDistanceScale := 1, ior := 3/2 },
        { indexBSDF := 1, albedo := (462745/1000000, 72549/100000, 0)
          useAlbedoTexture := false, useCutoutTexture := false, thinwalled := false
          absorptionColor := (9/10, 4/5, 4/5), volumeDistanceScale := 1, ior := 133/100 },
        { indexBSDF := 1, albedo := (0, 0, 0), useAlbedoTexture := false
          useCutoutTexture := false, thinwalled := false
          absorptionColor := (1, 1, 1), volumeDistanceScale := 1, ior := 1 } ] }

/-- The `initRenderer` ordering: `initMaterials` then `initPipeline`, from the
constructor state. -/
def app (missID : Nat) (lightID : Bool) : AppState :=
  initPipeline (initMaterials (initialApp missID lightID))

/-- The usual arithmetic conversion applied in `instance < m_instances.size()`:
the (32-bit, possibly negative) `int` argument converts to the unsigned
64-bit `size_t`, i.e. is taken modulo `2^64`. -/
def intToSizeT (i : Int) : Nat := (i % (2 ^ 64 : Int)).toNat

/-- The hit-group record arrays touched by `updateShaderBindingTable`:
the host array `m_sbtRecordGeometryInstanceData` and its device mirror
`m_d_sbtRecordGeometryInstanceData`, plus counters for the stream
synchronizations and host-to-device copies the function issues. -/
structure SbtState where
  host : List SbtRecordGeometryInstanceData
  device : List SbtRecordGeometryInstanceData
  syncs : Nat
  copies : Nat
deriving DecidableEq, Inhabited

/-- The partial device copy
`cudaMemcpy(&m_d_sbtRecordGeometryInstanceData[idx], &m_sbtRecordGeometryInstanceData[idx], sizeof(...) * NUM_RAYTYPES, ...)`:
destination entries in `[start, start + cnt)` are overwritten from the
source array, all others keep their previous value. -/
def copyRange (dst src : List SbtRecordGeometryInstanceData)
    (start cnt : Nat) : List SbtRecordGeometryInstanceData :=
  (List.range dst.length).map fun j =>
    if start ≤ j ∧ j < start + cnt then src.getD j default else dst.getD j default

/-- Function `Application::updateShaderBindingTable(const int instance)`: when the
guard `instance < m_instances.size()` passes, re-selects the two hit-group
headers of that instance from the material's current `useCutoutTexture`
flag (payload untouched), synchronizes the stream, and copies exactly the
two records `[idx, idx + NUM_RAYTYPES)` to the device; otherwise nothing
happens. -/
def updateShaderBindingTable (gui : List MaterialParameterGUI)
    (numInstances : Nat) (s : SbtState) (inst : Int) : SbtState :=
  if intToSizeT inst < numInstances then
    let i := intToSizeT inst
    let idx := i * NUM_RAYTYPES
    let cutout := (gui.getD i default).useCutoutTexture
    let host1 := modifyAt s.host idx fun r =>
      { r with header := if !cutout then PROGRAM_ID_HIT_RADIANCE
          else PROGRAM_ID_HIT_RADIANCE_CUTOUT }
    let host2 := modifyAt host1 (idx + 1) fun r =>
      { r with header := if !cutout then PROGRAM_ID_HIT_SHADOW
          else PROGRAM_ID_HIT_SHADOW_CUTOUT }
    { host := host2
      device := copyRange s.device host2 idx NUM_RAYTYPES
      syncs := s.syncs + 1
      copies := s.copies + 1 }
  else s

/-- The GUI-to-device conversion of one material in
`Application::updateMaterialParameters`. `logf` is the external C
math-library logarithm, passed as a parameter; `texAlbedo` / `texCutout`
are the texture objects returned by the albedo/cutout `Texture`
collaborators. -/
def convertMaterial (logf : ℚ → ℚ) (texAlbedo texCutout : Nat)
    (src : MaterialParameterGUI) : MaterialParameter :=
  let x := if 0 < src.absorptionColor.1 then -(logf src.absorptionColor.1)
      else RT_DEFAULT_MAX
  let y := if 0 < src.absorptionColor.2.1 then -(logf src.absorptionColor.2.1)
      else RT_DEFAULT_MAX
  let z := if 0 < src.absorptionColor.2.2 then -(logf src.absorptionColor.2.2)
      else RT_DEFAULT_MAX
  { indexBSDF := src.indexBSDF
    albedo := src.albedo
    textureAlbedo := if src.useAlbedoTexture then texAlbedo else 0
    textureCutout := if src.useCutoutTexture then texCutout else 0
    flags := if src.thinwalled then FLAG_THINWALLED else 0
    absorption := scaleV (x, y, z) src.volumeDistanceScale
    ior := src.ior }

/-- Function `Application::updateMaterialParameters`: converts every GUI material to
the device layout (the device upload mirrors this host vector). -/
def updateMaterialParameters (logf : ℚ → ℚ) (texAlbedo texCutout : Nat)
    (gui : List MaterialParameterGUI) : List MaterialParameter :=
  gui.map (convertMaterial logf texAlbedo texCutout)

/-- Function `Application::readData`: the external `ifstream` outcome is summarized
by whether the open failed, the byte contents, and whether a read error was
flagged after the copy. The function signals failure only through the empty
result. -/
def readData (openFailed : Bool) (fileContents : List Nat)
    (readFailed : Bool) : List Nat :=
  if openFailed then []
  else if readFailed then []
  else fileContents

/-- Accumulation-loop state of `Application::render` /
`Application::restartAccumulation`: the iteration counter
`m_iterationIndex`, the host parameter field
`m_systemParameter.iterationIndex`, the device mirror of that field, the
present gating flags, and the frame budget `m_frames`. -/
structure RenderState where
  iterationIndex : Nat
  sysIterationIndex : Nat
  devIterationIndex : Nat
  presentNext : Bool
  present : Bool
  presentAtSecond : ℚ
  frames : Nat
deriving DecidableEq, Inhabited

/-- Function `Application::restartAccumulation`: resets `m_iterationIndex`, forces
the next present, resets the present-time threshold, synchronizes, uploads
the full parameter struct (so the device mirror picks up the current host
field), and restarts the timer. -/
def restartAccumulation (s : RenderState) : RenderState :=
  { s with iterationIndex := 0
           presentNext := true
           presentAtSecond := 1
           devIterationIndex := s.sysIterationIndex }

/-- Function `Application::render`: `cameraChanged` is the result of
`m_pinholeCamera.getFrustum`, `seconds` the `m_timer.getTime()` reading.
Returns the new state, the iteration index uploaded for (and observed by)
the launch when one is issued, and the repaint flag. -/
def render (s : RenderState) (cameraChanged : Bool) (seconds : ℚ) :
    RenderState × Option Nat × Bool :=
  let s := if cameraChanged then restartAccumulation s else s
  let launchStep : RenderState × Option Nat :=
    if 0 = s.frames ∨ s.iterationIndex < s.frames then
      ({ s with sysIterationIndex := s.iterationIndex
                devIterationIndex := s.iterationIndex
                iterationIndex := s.iterationIndex + 1 }, some s.iterationIndex)
    else (s, none)
  let s := launchStep.1
  let launched := launchStep.2
  let presentStep : RenderState × Bool :=
    if s.presentNext then ({ s with presentNext := s.present }, true)
    else (s, false)
  let s := presentStep.1
  let repaint := presentStep.2
  let s :=
    if seconds < 1 / 2 then { s with presentAtSecond := 1, presentNext := true }
    else if s.presentAtSecond < seconds then
      { s with presentAtSecond := ((⌈seconds⌉ : ℤ) : ℚ), presentNext := true }
    else s
  (s, launched, repaint)

/-- Lists of instances obtainable by repeatedly appending with the
`mkInstance` push pattern, in any order and number: the shape every scene
construction of this application has. -/
inductive BuiltByAppends : List OptixInstance → Prop where
  | nil : BuiltByAppends []
  | push (l : List OptixInstance) (t : List ℚ) (h : Nat) :
      BuiltByAppends l → BuiltByAppends (l ++ [mkInstance l t h])

theorem modifyAt_length (l : List SbtRecordGeometryInstanceData) (i : Nat)
    (f : SbtRecordGeometryInstanceData → SbtRecordGeometryInstanceData) :
    (modifyAt l i f).length = l.length :=
  List.length_set l i _

theorem modifyAt_getElem?_ne (l : List SbtRecordGeometryInstanceData)
    (i j : Nat)
    (f : SbtRecordGeometryInstanceData → SbtRecordGeometryInstanceData)
    (h : i ≠ j) : (modifyAt l i f)[j]? = l[j]? :=
  List.getElem?_set_ne h

theorem modifyAt_getElem?_self (l : List SbtRecordGeometryInstanceData)
    (i : Nat)
    (f : SbtRecordGeometryInstanceData → SbtRecordGeometryInstanceData)
    (h : i < l.length) :
    (modifyAt l i f)[i]? = some (f (l.getD i default)) :=
  List.getElem?_set_eq_of_lt _ h

theorem sbtHitRecordsBase_length (gui : List MaterialParameterGUI)
    (geos : List GeometryData) (n : Nat) :
    (sbtHitRecordsBase gui geos n).length = n * NUM_RAYTYPES := by
  induction n with
  | zero => rfl
  | succ n ih =>
      show (sbtHitRecordsBase gui geos n ++ [_, _]).length = _
      rw [List.length_append, ih]
      simp [NUM_RAYTYPES]
      omega

theorem sbtHitRecordsBase_getElem?_rad (gui : List MaterialParameterGUI)
    (geos : List GeometryData) (n i : Nat) (h : i < n) :
    (sbtHitRecordsBase gui geos n)[i * NUM_RAYTYPES]? =
      some (hitRecordRadiance gui geos i) := by
  induction n with
  | zero => omega
  | succ n ih =>
      show (sbtHitRecordsBase gui geos n ++ [_, _])[i * NUM_RAYTYPES]? = _
      rw [List.getElem?_append, sbtHitRecordsBase_length]
      rcases Nat.lt_or_ge i n with hlt | hge
      · rw [if_pos (by simp [NUM_RAYTYPES]; omega)]
        exact ih hlt
      · have hi : i = n := by omega
        subst hi
        rw [if_neg (by omega), Nat.sub_self]
        rfl

theorem sbtHitRecordsBase_getElem?_shad (gui : List MaterialParameterGUI)
    (geos : List GeometryData) (n i : Nat) (h : i < n) :
    (sbtHitRecordsBase gui geos n)[i * NUM_RAYTYPES + 1]? =
      some (hitRecordShadow gui geos i) := by
  induction n with
  | zero => omega
  | succ n ih =>
      show (sbtHitRecordsBase gui geos n ++ [_, _])[i * NUM_RAYTYPES + 1]? = _
      rw [List.getElem?_append, sbtHitRecordsBase_length]
      rcases Nat.lt_or_ge i n with hlt | hge
      · rw [if_pos (by simp [NUM_RAYTYPES]; omega)]
        exact ih hlt
      · have hi : i = n := by omega
        subst hi
        rw [if_neg (by omega)]
        have hone : i * NUM_RAYTYPES + 1 - i * NUM_RAYTYPES = 1 := by omega
        rw [hone]
        rfl

theorem sbtHitRecordsBase_getD_rad (gui : List MaterialParameterGUI)
    (geos : List GeometryData) (n i : Nat) (h : i < n) :
    (sbtHitRecordsBase gui geos n).getD (i * NUM_RAYTYPES) default =
      hitRecordRadiance gui geos i := by
  rw [List.getD_eq_getElem?_getD, sbtHitRecordsBase_getElem?_rad gui geos n i h]
  rfl

theorem sbtHitRecordsBase_getD_shad (gui : List MaterialParameterGUI)
    (geos : List GeometryData) (n i : Nat) (h : i < n) :
    (sbtHitRecordsBase gui geos n).getD (i * NUM_RAYTYPES + 1) default =
      hitRecordShadow gui geos i := by
  rw [List.getD_eq_getElem?_getD, sbtHitRecordsBase_getElem?_shad gui geos n i h]
  rfl

/-- The light index the `if (m_lightID)` fix-up of `initPipeline` writes:
`(m_missID != 0) ? 1 : 0`. -/
def lightIndexFix (missID : Nat) : Int := if missID ≠ 0 then 1 else 0

/-- The light index of record `i * NUM_RAYTYPES + r` in the populated SBT:
`-1` except for the light instance (the last one, present iff `m_lightID`). -/
def expectedLightIndex (lightID : Bool) (missID numInstances i : Nat) : Int :=
  if lightID = true ∧ i + 1 = numInstances then lightIndexFix missID else -1

theorem sbtHitRecordsInit_false (gui : List MaterialParameterGUI)
    (geos : List GeometryData) (n missID : Nat) :
    sbtHitRecordsInit gui geos n false missID = sbtHitRecordsBase gui geos n :=
  rfl

theorem sbtHitRecordsInit_true (gui : List MaterialParameterGUI)
    (geos : List GeometryData) (n missID : Nat) :
    sbtHitRecordsInit gui geos n true missID =
      modifyAt (modifyAt (sbtHitRecordsBase gui geos n)
          ((n - 1) * NUM_RAYTYPES)
          (fun r => { r with lightIndex := lightIndexFix missID }))
        ((n - 1) * NUM_RAYTYPES + 1)
        (fun r => { r with lightIndex := lightIndexFix missID }) :=
  rfl

theorem sbtHitRecordsInit_getElem?_rad (gui : List MaterialParameterGUI)
    (geos : List GeometryData) (n : Nat) (lightID : Bool) (missID : Nat)
    (i : Nat) (h : i < n) :
    (sbtHitRecordsInit gui geos n lightID missID)[i * NUM_RAYTYPES]? =
      some { hitRecordRadiance gui geos i with
             lightIndex := expectedLightIndex lightID missID n i } := by
  cases lightID with
  | false =>
      rw [sbtHitRecordsInit_false, sbtHitRecordsBase_getElem?_rad gui geos n i h]
      simp [hitRecordRadiance, expectedLightIndex]
  | true =>
      rw [sbtHitRecordsInit_true]
      rw [modifyAt_getElem?_ne _ _ _ _ (by simp [NUM_RAYTYPES]; omega)]
      by_cases hin : i + 1 = n
      · have hidx : (n - 1) * NUM_RAYTYPES = i * NUM_RAYTYPES := by
          simp [NUM_RAYTYPES]; omega
        rw [hidx, modifyAt_getElem?_self _ _ _
              (by rw [sbtHitRecordsBase_length]
                  simp [NUM_RAYTYPES]; omega),
            sbtHitRecordsBase_getD_rad gui geos n i h]
        simp [expectedLightIndex, hin]
      · have hne : (n - 1) * NUM_RAYTYPES ≠ i * NUM_RAYTYPES := by
          simp [NUM_RAYTYPES]; omega
        rw [modifyAt_getElem?_ne _ _ _ _ hne,
            sbtHitRecordsBase_getElem?_rad gui geos n i h]
        simp [hitRecordRadiance, expectedLightIndex, hin]

theorem sbtHitRecordsInit_getElem?_shad (gui : List MaterialParameterGUI)
    (geos : List GeometryData) (n : Nat) (lightID : Bool) (missID : Nat)
    (i : Nat) (h : i < n) :
    (sbtHitRecordsInit gui geos n lightID missID)[i * NUM_RAYTYPES + 1]? =
      some { hitRecordShadow gui geos i with
             lightIndex := expectedLightIndex lightID missID n i } := by
  cases lightID with
  | false =>
      rw [sbtHitRecordsInit_false, sbtHitRecordsBase_getElem?_shad gui geos n i h]
      simp [hitRecordShadow, expectedLightIndex]
  | true =>
      rw [sbtHitRecordsInit_true]
      by_cases hin : i + 1 = n
      · have hidx : (n - 1) * NUM_RAYTYPES + 1 = i * NUM_RAYTYPES + 1 := by
          simp [NUM_RAYTYPES]; omega
        rw [hidx, modifyAt_getElem?_self _ _ _
              (by rw [modifyAt_length, sbtHitRecordsBase_length]
                  simp [NUM_RAYTYPES]; omega)]
        have hgd : (modifyAt (sbtHitRecordsBase gui geos n)
            ((n - 1) * NUM_RAYTYPES)
            (fun r => { r with lightIndex := lightIndexFix missID })).getD
              (i * NUM_RAYTYPES + 1) default = hitRecordShadow gui geos i := by
          rw [List.getD_eq_getElem?_getD,
              modifyAt_getElem?_ne _ _ _ _ (by simp [NUM_RAYTYPES]; omega),
              sbtHitRecordsBase_getElem?_shad gui geos n i h]
          rfl
        rw [hgd]
        simp [expectedLightIndex, hin]
      · have hne2 : (n - 1) * NUM_RAYTYPES + 1 ≠ i * NUM_RAYTYPES + 1 := by
          simp [NUM_RAYTYPES]; omega
        rw [modifyAt_getElem?_ne _ _ _ _ hne2,
            modifyAt_getElem?_ne _ _ _ _ (by simp [NUM_RAYTYPES]; omega),
            sbtHitRecordsBase_getElem?_shad gui geos n i h]
        simp [hitRecordShadow, expectedLightIndex, hin]

theorem sbtHitRecordsInit_length (gui : List MaterialParameterGUI)
    (geos : List GeometryData) (n : Nat) (lightID : Bool) (missID : Nat) :
    (sbtHitRecordsInit gui geos n lightID missID).length = n * NUM_RAYTYPES := by
  cases lightID with
  | false => exact sbtHitRecordsBase_length gui geos n
  | true =>
      rw [sbtHitRecordsInit_true, modifyAt_length, modifyAt_length,
          sbtHitRecordsBase_length]

theorem copyRange_length (dst src : List SbtRecordGeometryInstanceData)
    (start cnt : Nat) : (copyRange dst src start cnt).length = dst.length := by
  simp [copyRange]

theorem copyRange_getD (dst src : List SbtRecordGeometryInstanceData)
    (start cnt j : Nat) :
    (copyRange dst src start cnt).getD j default =
      if start ≤ j ∧ j < start + cnt ∧ j < dst.length then src.getD j default
      else dst.getD j default := by
  rw [List.getD_eq_getElem?_getD, copyRange, List.getElem?_map]
  by_cases hj : j < dst.length
  · rw [List.getElem?_range hj]
    by_cases hr : start ≤ j ∧ j < start + cnt
    · simp [hr, hj]
    · simp only [Option.map_some']
      rw [if_neg hr, if_neg (by tauto)]
      rfl
  · have hnone : (List.range dst.length)[j]? = none := by
      rw [List.getElem?_eq_none]
      simpa using Nat.le_of_not_lt hj
    rw [hnone]
    simp only [Option.map_none', Option.getD_none]
    rw [if_neg (by tauto), List.getD_eq_default _ _ (Nat.le_of_not_lt hj)]

theorem intToSizeT_ofNat (i : Nat) (h : i < 2 ^ 64) :
    intToSizeT (i : Int) = i := by
  unfold intToSizeT
  omega

theorem intToSizeT_neg (i : Int) (hlo : -(2 ^ 31) ≤ i) (hneg : i < 0) :
    2 ^ 63 ≤ intToSizeT i := by
  unfold intToSizeT
  omega

/-- The `mkInstance` push pattern yields `sbtOffset = i * NUM_RAYTYPES` and
`instanceId = i` at every position, for every sequence of pushes. -/
theorem builtByAppends_getD {l : List OptixInstance} (hb : BuiltByAppends l) :
    ∀ i, i < l.length →
      (l.getD i default).sbtOffset = i * NUM_RAYTYPES ∧
      (l.getD i default).instanceId = i := by
  induction hb with
  | nil => intro i hi; simp at hi
  | push l t hdl hb ih =>
      intro i hi
      rw [List.length_append, List.length_cons, List.length_nil] at hi
      rw [List.getD_eq_getElem?_getD, List.getElem?_append]
      rcases Nat.lt_or_ge i l.length with hlt | hge
      · rw [if_pos hlt, ← List.getD_eq_getElem?_getD]
        exact ih i hlt
      · have hil : i = l.length := by omega
        subst hil
        rw [if_neg (by omega), Nat.sub_self]
        exact ⟨rfl, rfl⟩

set_option maxHeartbeats 1000000 in
/-- C1: for any instance count N and the fixed ray-type count
R = NUM_RAYTYPES = 2, the hit-group SBT record array built by pipeline
initialization has exactly N * R entries, and the callable-record array
length equals NUM_PROGRAM_IDENTIFIERS - PROGRAM_ID_LENS_PINHOLE (the fixed
number of callable program identifiers). -/
theorem sbt_record_counts :
    (∀ (gui : List MaterialParameterGUI) (geos : List GeometryData)
        (n : Nat) (lightID : Bool) (missID : Nat),
      (sbtHitRecordsInit gui geos n lightID missID).length = n * NUM_RAYTYPES) ∧
    (∀ (missID : Nat) (lightID : Bool),
      (app missID lightID).sbtHost.length =
          (app missID lightID).instances.length * NUM_RAYTYPES ∧
      (app missID lightID).sbtDevice.length =
          (app missID lightID).instances.length * NUM_RAYTYPES ∧
      (app missID lightID).hitgroupRecordCount =
          NUM_RAYTYPES * (app missID lightID).instances.length ∧
      (app missID lightID).callablesRecordCount =
          NUM_PROGRAM_IDENTIFIERS - PROGRAM_ID_LENS_PINHOLE) := by
  constructor
  · exact fun gui geos n lightID missID =>
      sbtHitRecordsInit_length gui geos n lightID missID
  · intro missID lightID
    cases lightID <;> exact ⟨rfl, rfl, rfl, rfl⟩

theorem ratSqrt256 : ratSqrt 256 = 16 := by
  rw [ratSqrt]
  have h1 : (256 : ℚ).num.toNat = 256 := by decide
  have h2 : (256 : ℚ).den = 1 := by decide
  have h3 : natSqrt 256 = 16 := by decide
  have h4 : natSqrt 1 = 1 := by decide
  rw [h1, h2, h3, h4]
  norm_num

/-- The parallelogram light evaluates to area 16 and unit normal (0, -1, 0). -/
theorem parallelogramLight_eq : parallelogramLight =
    { type := LIGHT_PARALLELOGRAM
      position := (-2, 4, -2)
      vecU := (4, 0, 0)
      vecV := (0, 0, 4)
      normal := (0, -1, 0)
      area := 16
      emission := (10, 10, 10) } := by
  have hc : cross ((4 : ℚ), 0, 0) ((0 : ℚ), 0, 4) = (0, -16, 0) := by
    simp [cross]; norm_num
  have hl : lengthSq ((0 : ℚ), -16, 0) = 256 := by norm_num [lengthSq]
  rw [parallelogramLight]
  simp only [hc, vlength, hl, ratSqrt256]
  norm_num

/-- C7: with environment type constant (miss id 1) and the parallelogram
light enabled, the light array has length 2 with the environment light at
index 0 and the parallelogram light at index 1; the parallelogram's area is
the Euclidean length of `cross vecU vecV` (stated exactly: the area is
nonnegative and its square is the squared length of the cross product), and
its normal is that cross product divided by the area. -/
theorem lights_constant_env_with_parallelogram :
    (app 1 true).lightDefinitions.length = 2 ∧
    ((app 1 true).lightDefinitions.getD 0 default).type = LIGHT_ENVIRONMENT ∧
    ((app 1 true).lightDefinitions.getD 1 default).type = LIGHT_PARALLELOGRAM ∧
    ((app 1 true).lightDefinitions.getD 1 default).area *
        ((app 1 true).lightDefinitions.getD 1 default).area =
      lengthSq (cross ((app 1 true).lightDefinitions.getD 1 default).vecU
        ((app 1 true).lightDefinitions.getD 1 default).vecV) ∧
    0 ≤ ((app 1 true).lightDefinitions.getD 1 default).area ∧
    scaleV ((app 1 true).lightDefinitions.getD 1 default).normal
        ((app 1 true).lightDefinitions.getD 1 default).area =
      cross ((app 1 true).lightDefinitions.getD 1 default).vecU
        ((app 1 true).lightDefinitions.getD 1 default).vecV ∧
    ((app 1 true).lightDefinitions.getD 1 default).area = 16 := by
  have hL : (app 1 true).lightDefinitions.getD 1 default = parallelogramLight := rfl
  have hlen : (app 1 true).lightDefinitions.length = 2 := rfl
  have hE : ((app 1 true).lightDefinitions.getD 0 default).type = LIGHT_ENVIRONMENT := rfl
  refine ⟨hlen, hE, ?_, ?_, ?_, ?_, ?_⟩ <;> rw [hL, parallelogramLight_eq] <;>
    norm_num [lengthSq, cross, scaleV]

/-- C8: `readData` returns the empty vector whenever the file could not be
opened or a read error occurred, returns the complete file contents
otherwise, and (being a total function into byte vectors) signals failure
through no other channel. -/
theorem readData_contract (openFailed readFailed : Bool)
    (fileContents : List Nat) :
    (openFailed = true ∨ readFailed = true →
      readData openFailed fileContents readFailed = []) ∧
    (openFailed = false → readFailed = false →
      readData openFailed fileContents readFailed = fileContents) := by
  cases openFailed <;> cases readFailed <;> simp [readData]

theorem readData_contract_witness :
    readData true [3, 1] false = [] ∧
    readData false [3, 1] true = [] ∧
    readData false [3, 1] false = [3, 1] :=
  ⟨(readData_contract true false [3, 1]).1 (Or.inl rfl),
   (readData_contract false true [3, 1]).1 (Or.inr rfl),
   (readData_contract false false [3, 1]).2 rfl rfl⟩

/-- C5: when the camera frame changed, `render` first restarts the
accumulation — the iteration index uploaded for and observed by the launch
of that same call is 0 (`some 0`, not a continuation of the prior count),
the repaint flag of that call is true (a present is forced), and the
restart resets the iteration counter, sets the present-next flag and resets
the present-time threshold to 1 second. -/
theorem render_camera_change (s : RenderState) (seconds : ℚ) :
    (render s true seconds).2.1 = some 0 ∧
    (render s true seconds).2.2 = true ∧
    (render s true seconds).1.devIterationIndex = 0 ∧
    (restartAccumulation s).iterationIndex = 0 ∧
    (restartAccumulation s).presentNext = true ∧
    (restartAccumulation s).presentAtSecond = 1 := by
  refine ⟨?_, ?_, ?_, rfl, rfl, rfl⟩ <;>
  · simp only [render, restartAccumulation]
    rcases Nat.eq_zero_or_pos s.frames with h | h <;>
      simp [h] <;> split_ifs <;> simp

theorem updateMaterialParameters_getD (logf : ℚ → ℚ) (ta tc : Nat)
    (gui : List MaterialParameterGUI) (i : Nat) (h : i < gui.length) :
    (updateMaterialParameters logf ta tc gui).getD i default =
      convertMaterial logf ta tc (gui.getD i default) := by
  rw [List.getD_eq_getElem?_getD, updateMaterialParameters, List.getElem?_map,
      List.getElem?_eq_getElem h]
  simp [List.getD_eq_getElem?_getD, List.getElem?_eq_getElem h]

/-- GUI material exercising the absorption conversion at a zero channel
with volume distance scale 2 (reachable through the GUI Volume Scale
slider, range 0..100). -/
def guiMaterialZeroAbsorption : MaterialParameterGUI :=
  { indexBSDF := 2
    albedo := (1, 1, 1)
    useAlbedoTexture := false
    useCutoutTexture := false
    thinwalled := false
    absorptionColor := (0, 1/2, 1)
    volumeDistanceScale := 2
    ior := 3/2 }

/-- C6 counterexample: for a material with absorption color channel exactly
0 but volume distance scale 2, the derived absorption coefficient is
`RT_DEFAULT_MAX * 2`, not the sentinel `RT_DEFAULT_MAX` itself — the claim
as stated fails because the sentinel is also multiplied by the scale. -/
theorem absorption_zero_channel_not_bare_sentinel :
    guiMaterialZeroAbsorption.absorptionColor.1 = 0 ∧
    ((updateMaterialParameters (fun _ => 0) 7 9
        [guiMaterialZeroAbsorption]).getD 0 default).absorption.1 ≠
      RT_DEFAULT_MAX := by
  constructor
  · rfl
  · rw [updateMaterialParameters_getD (fun _ => 0) 7 9
        [guiMaterialZeroAbsorption] 0 (by decide)]
    simp only [convertMaterial, scaleV, guiMaterialZeroAbsorption]
    norm_num [RT_DEFAULT_MAX]

/-- C6 (amended): in the GUI-to-device conversion, a channel with
absorption color exactly 0 yields `RT_DEFAULT_MAX * volumeDistanceScale`
(the sentinel path, taken without evaluating the logarithm — in particular
the result is a finite rational for every external `logf`); a channel
strictly greater than 0 yields `-logf(channel) * volumeDistanceScale`. -/
theorem absorption_conversion (logf : ℚ → ℚ) (ta tc : Nat)
    (gui : List MaterialParameterGUI) (i : Nat) (h : i < gui.length) :
    ((gui.getD i default).absorptionColor.1 = 0 →
      ((updateMaterialParameters logf ta tc gui).getD i default).absorption.1 =
        RT_DEFAULT_MAX * (gui.getD i default).volumeDistanceScale) ∧
    (0 < (gui.getD i default).absorptionColor.1 →
      ((updateMaterialParameters logf ta tc gui).getD i default).absorption.1 =
        -(logf (gui.getD i default).absorptionColor.1) *
          (gui.getD i default).volumeDistanceScale) ∧
    ((gui.getD i default).absorptionColor.2.1 = 0 →
      ((updateMaterialParameters logf ta tc gui).getD i default).absorption.2.1 =
        RT_DEFAULT_MAX * (gui.getD i default).volumeDistanceScale) ∧
    (0 < (gui.getD i default).absorptionColor.2.1 →
      ((updateMaterialParameters logf ta tc gui).getD i default).absorption.2.1 =
        -(logf (gui.getD i default).absorptionColor.2.1) *
          (gui.getD i default).volumeDistanceScale) ∧
    ((gui.getD i default).absorptionColor.2.2 = 0 →
      ((updateMaterialParameters logf ta tc gui).getD i default).absorption.2.2 =
        RT_DEFAULT_MAX * (gui.getD i default).volumeDistanceScale) ∧
    (0 < (gui.getD i default).absorptionColor.2.2 →
      ((updateMaterialParameters logf ta tc gui).getD i default).absorption.2.2 =
        -(logf (gui.getD i default).absorptionColor.2.2) *
          (gui.getD i default).volumeDistanceScale) := by
  rw [updateMaterialParameters_getD logf ta tc gui i h]
  generalize gui.getD i default = src
  refine ⟨fun h0 => ?_, fun h0 => ?_, fun h0 => ?_, fun h0 => ?_,
      fun h0 => ?_, fun h0 => ?_⟩ <;>
    simp [convertMaterial, scaleV, h0]

theorem absorption_conversion_witness :
    ((updateMaterialParameters (fun q => q) 7 9
        [guiMaterialZeroAbsorption]).getD 0 default).absorption.1 =
      RT_DEFAULT_MAX * 2 ∧
    ((updateMaterialParameters (fun q => q) 7 9
        [guiMaterialZeroAbsorption]).getD 0 default).absorption.2.1 =
      -(1 / 2) * 2 :=
  ⟨(absorption_conversion (fun q => q) 7 9 [guiMaterialZeroAbsorption] 0
      (by decide)).1 rfl,
   (absorption_conversion (fun q => q) 7 9 [guiMaterialZeroAbsorption] 0
      (by decide)).2.2.2.1 (by norm_num [guiMaterialZeroAbsorption])⟩

set_option maxHeartbeats 1000000 in
/-- C2: every instance appended during scene construction (including the
optional parallelogram-light instance) has `sbtOffset = i * NUM_RAYTYPES`
and `instanceId = i` at its position `i`; the same holds for any list built
by the `mkInstance` push pattern in any insertion order; consequently every
`sbtOffset` is a multiple of the ray-type count and unique per instance. -/
theorem instance_sbt_offsets :
    (∀ (missID : Nat) (lightID : Bool) (i : Nat),
      i < (app missID lightID).instances.length →
      ((app missID lightID).instances.getD i default).sbtOffset =
          i * NUM_RAYTYPES ∧
      ((app missID lightID).instances.getD i default).instanceId = i) ∧
    (∀ l, BuiltByAppends l → ∀ i, i < l.length →
      (l.getD i default).sbtOffset = i * NUM_RAYTYPES ∧
      (l.getD i default).instanceId = i) ∧
    (∀ (missID : Nat) (lightID : Bool) (i j : Nat),
      i < (app missID lightID).instances.length →
      j < (app missID lightID).instances.length →
      ((app missID lightID).instances.getD i default).sbtOffset =
        ((app missID lightID).instances.getD j default).sbtOffset → i = j) := by
  have happ : ∀ (missID : Nat) (lightID : Bool) (i : Nat),
      i < (app missID lightID).instances.length →
      ((app missID lightID).instances.getD i default).sbtOffset =
          i * NUM_RAYTYPES ∧
      ((app missID lightID).instances.getD i default).instanceId = i := by
    intro missID lightID i hi
    cases lightID
    · have h5 : i < 5 := hi
      interval_cases i <;> exact ⟨rfl, rfl⟩
    · have h6 : i < 6 := hi
      interval_cases i <;> exact ⟨rfl, rfl⟩
  refine ⟨happ, fun l hb => builtByAppends_getD hb, ?_⟩
  intro missID lightID i j hi hj hoff
  have h1 := (happ missID lightID i hi).1
  have h2 := (happ missID lightID j hj).1
  rw [h1, h2] at hoff
  simp [NUM_RAYTYPES] at hoff
  omega

theorem instance_sbt_offsets_witness :
    (((app 1 true).instances.getD 5 default).sbtOffset = 5 * NUM_RAYTYPES ∧
      ((app 1 true).instances.getD 5 default).instanceId = 5) ∧
    ((([] : List OptixInstance) ++
        [mkInstance [] trafoLight 0]).getD 0 default).sbtOffset =
      0 * NUM_RAYTYPES :=
  ⟨instance_sbt_offsets.1 1 true 5 (by decide),
   (instance_sbt_offsets.2.1 _
      (BuiltByAppends.push [] trafoLight 0 BuiltByAppends.nil) 0
      (by decide)).1⟩

/-- C9: in the populated SBT, both records of instance `i` carry
`materialIndex = i`; their `lightIndex` is `-1`, except that when the
parallelogram light is enabled the two records of the last instance carry
`1` when an environment light exists (miss id nonzero) and `0` otherwise. -/
theorem sbt_record_payload (missID : Nat) (lightID : Bool) (i : Nat)
    (h : i < (app missID lightID).instances.length) :
    ((app missID lightID).sbtHost.getD (i * NUM_RAYTYPES) default).materialIndex =
        (i : Int) ∧
    ((app missID lightID).sbtHost.getD (i * NUM_RAYTYPES + 1) default).materialIndex =
        (i : Int) ∧
    ((app missID lightID).sbtHost.getD (i * NUM_RAYTYPES) default).lightIndex =
      (if lightID = true ∧ i + 1 = (app missID lightID).instances.length
       then (if missID ≠ 0 then 1 else 0) else -1) ∧
    ((app missID lightID).sbtHost.getD (i * NUM_RAYTYPES + 1) default).lightIndex =
      (if lightID = true ∧ i + 1 = (app missID lightID).instances.length
       then (if missID ≠ 0 then 1 else 0) else -1) := by
  have hs : (app missID lightID).sbtHost =
      sbtHitRecordsInit (app missID lightID).guiMaterialParameters
        (app missID lightID).geometries
        (app missID lightID).instances.length lightID missID := by
    cases lightID <;> rfl
  refine ⟨?_, ?_, ?_, ?_⟩ <;>
    rw [hs, List.getD_eq_getElem?_getD]
  · rw [sbtHitRecordsInit_getElem?_rad _ _ _ lightID missID i h]
    rfl
  · rw [sbtHitRecordsInit_getElem?_shad _ _ _ lightID missID i h]
    rfl
  · rw [sbtHitRecordsInit_getElem?_rad _ _ _ lightID missID i h]
    simp [expectedLightIndex, lightIndexFix]
  · rw [sbtHitRecordsInit_getElem?_shad _ _ _ lightID missID i h]
    simp [expectedLightIndex, lightIndexFix]

theorem sbt_record_payload_witness :
    ((app 2 true).sbtHost.getD 10 default).materialIndex = 5 ∧
    ((app 2 true).sbtHost.getD 11 default).lightIndex = 1 := by
  have h := sbt_record_payload 2 true 5 (by decide)
  have hlen : (app 2 true).instances.length = 6 := rfl
  refine ⟨h.1, ?_⟩
  have h4 := h.2.2.2
  rw [hlen] at h4
  simpa using h4

theorem updateShaderBindingTable_in_range (gui : List MaterialParameterGUI)
    (n : Nat) (s : SbtState) (i : Nat) (hin : i < n) (h64 : i < 2 ^ 64) :
    updateShaderBindingTable gui n s (i : Int) =
      { host := modifyAt (modifyAt s.host (i * NUM_RAYTYPES) fun r =>
            { r with header := if !(gui.getD i default).useCutoutTexture
                then PROGRAM_ID_HIT_RADIANCE else PROGRAM_ID_HIT_RADIANCE_CUTOUT })
          (i * NUM_RAYTYPES + 1) fun r =>
            { r with header := if !(gui.getD i default).useCutoutTexture
                then PROGRAM_ID_HIT_SHADOW else PROGRAM_ID_HIT_SHADOW_CUTOUT }
        device := copyRange s.device
          (modifyAt (modifyAt s.host (i * NUM_RAYTYPES) fun r =>
              { r with header := if !(gui.getD i default).useCutoutTexture
                  then PROGRAM_ID_HIT_RADIANCE else PROGRAM_ID_HIT_RADIANCE_CUTOUT })
            (i * NUM_RAYTYPES + 1) fun r =>
              { r with header := if !(gui.getD i default).useCutoutTexture
                  then PROGRAM_ID_HIT_SHADOW else PROGRAM_ID_HIT_SHADOW_CUTOUT })
          (i * NUM_RAYTYPES) NUM_RAYTYPES
        syncs := s.syncs + 1
        copies := s.copies + 1 } := by
  have h : intToSizeT (i : Int) = i := intToSizeT_ofNat i h64
  unfold updateShaderBindingTable
  rw [h, if_pos hin]

theorem updateSBT_host_getD_rad (gui : List MaterialParameterGUI) (n : Nat)
    (s : SbtState) (i : Nat) (hin : i < n) (h64 : i < 2 ^ 64)
    (hlen : s.host.length = n * NUM_RAYTYPES) :
    (updateShaderBindingTable gui n s (i : Int)).host.getD
        (i * NUM_RAYTYPES) default =
      { s.host.getD (i * NUM_RAYTYPES) default with
        header := if !(gui.getD i default).useCutoutTexture
          then PROGRAM_ID_HIT_RADIANCE else PROGRAM_ID_HIT_RADIANCE_CUTOUT } := by
  rw [updateShaderBindingTable_in_range gui n s i hin h64]
  rw [List.getD_eq_getElem?_getD,
      modifyAt_getElem?_ne _ _ _ _ (by omega),
      modifyAt_getElem?_self _ _ _
        (by rw [hlen]; simp [NUM_RAYTYPES]; omega)]
  rfl

theorem updateSBT_host_getD_shad (gui : List MaterialParameterGUI) (n : Nat)
    (s : SbtState) (i : Nat) (hin : i < n) (h64 : i < 2 ^ 64)
    (hlen : s.host.length = n * NUM_RAYTYPES) :
    (updateShaderBindingTable gui n s (i : Int)).host.getD
        (i * NUM_RAYTYPES + 1) default =
      { s.host.getD (i * NUM_RAYTYPES + 1) default with
        header := if !(gui.getD i default).useCutoutTexture
          then PROGRAM_ID_HIT_SHADOW else PROGRAM_ID_HIT_SHADOW_CUTOUT } := by
  rw [updateShaderBindingTable_in_range gui n s i hin h64]
  rw [List.getD_eq_getElem?_getD,
      modifyAt_getElem?_self _ _ _
        (by rw [modifyAt_length, hlen]; simp [NUM_RAYTYPES]; omega)]
  have hgd : (modifyAt s.host (i * NUM_RAYTYPES) fun r =>
      { r with header := if !(gui.getD i default).useCutoutTexture
          then PROGRAM_ID_HIT_RADIANCE else PROGRAM_ID_HIT_RADIANCE_CUTOUT }).getD
        (i * NUM_RAYTYPES + 1) default =
      s.host.getD (i * NUM_RAYTYPES + 1) default := by
    rw [List.getD_eq_getElem?_getD,
        modifyAt_getElem?_ne _ _ _ _ (by omega),
        ← List.getD_eq_getElem?_getD]
  rw [hgd]
  rfl

theorem updateSBT_host_getD_other (gui : List MaterialParameterGUI) (n : Nat)
    (s : SbtState) (i j : Nat) (hin : i < n) (h64 : i < 2 ^ 64)
    (hj : j < i * NUM_RAYTYPES ∨ i * NUM_RAYTYPES + NUM_RAYTYPES ≤ j) :
    (updateShaderBindingTable gui n s (i : Int)).host.getD j default =
      s.host.getD j default := by
  rw [updateShaderBindingTable_in_range gui n s i hin h64]
  have hj2 : j < i * 2 ∨ i * 2 + 2 ≤ j := by simpa [NUM_RAYTYPES] using hj
  rw [List.getD_eq_getElem?_getD,
      modifyAt_getElem?_ne _ _ _ _ (by simp [NUM_RAYTYPES]; omega),
      modifyAt_getElem?_ne _ _ _ _ (by simp [NUM_RAYTYPES]; omega),
      ← List.getD_eq_getElem?_getD]

theorem updateSBT_device_getD_other (gui : List MaterialParameterGUI) (n : Nat)
    (s : SbtState) (i j : Nat) (hin : i < n) (h64 : i < 2 ^ 64)
    (hj : j < i * NUM_RAYTYPES ∨ i * NUM_RAYTYPES + NUM_RAYTYPES ≤ j) :
    (updateShaderBindingTable gui n s (i : Int)).device.getD j default =
      s.device.getD j default := by
  rw [updateShaderBindingTable_in_range gui n s i hin h64]
  show (copyRange _ _ _ _).getD j default = _
  rw [copyRange_getD]
  rw [if_neg (by simp [NUM_RAYTYPES] at hj ⊢; omega)]

theorem updateSBT_device_getD_touched (gui : List MaterialParameterGUI)
    (n : Nat) (s : SbtState) (i : Nat) (hin : i < n) (h64 : i < 2 ^ 64)
    (hdev : s.device.length = n * NUM_RAYTYPES) :
    ((updateShaderBindingTable gui n s (i : Int)).device.getD
        (i * NUM_RAYTYPES) default =
      (updateShaderBindingTable gui n s (i : Int)).host.getD
        (i * NUM_RAYTYPES) default) ∧
    ((updateShaderBindingTable gui n s (i : Int)).device.getD
        (i * NUM_RAYTYPES + 1) default =
      (updateShaderBindingTable gui n s (i : Int)).host.getD
        (i * NUM_RAYTYPES + 1) default) := by
  rw [updateShaderBindingTable_in_range gui n s i hin h64]
  constructor
  · show (copyRange _ _ _ _).getD _ default = _
    rw [copyRange_getD]
    refine if_pos ⟨le_refl _, ?_, ?_⟩
    · simp [NUM_RAYTYPES]
    · rw [hdev]; simp [NUM_RAYTYPES]; omega
  · show (copyRange _ _ _ _).getD _ default = _
    rw [copyRange_getD]
    refine if_pos ⟨by omega, ?_, ?_⟩
    · simp [NUM_RAYTYPES]
    · rw [hdev]; simp [NUM_RAYTYPES]; omega

/-- C3: at initial SBT population, instance `i` gets the {radiance, shadow}
headers when its material has no cutout texture and the
{radiance-cutout, shadow-cutout} headers otherwise; after
`updateShaderBindingTable(j)` the two records of instance `j` carry the
headers selected by the material's current cutout flag, and their payload
(geometry pointers, material index, light index) is unchanged. -/
theorem hitgroup_header_selection (missID : Nat) (lightID : Bool) (i : Nat)
    (hi : i < (app missID lightID).instances.length)
    (gui : List MaterialParameterGUI) (n : Nat) (s : SbtState) (j : Nat)
    (hj : j < n) (hn : n ≤ 2 ^ 63) (hlen : s.host.length = n * NUM_RAYTYPES) :
    ((app missID lightID).sbtHost.getD (i * NUM_RAYTYPES) default).header =
      (if !((app missID lightID).guiMaterialParameters.getD i default).useCutoutTexture
       then PROGRAM_ID_HIT_RADIANCE else PROGRAM_ID_HIT_RADIANCE_CUTOUT) ∧
    ((app missID lightID).sbtHost.getD (i * NUM_RAYTYPES + 1) default).header =
      (if !((app missID lightID).guiMaterialParameters.getD i default).useCutoutTexture
       then PROGRAM_ID_HIT_SHADOW else PROGRAM_ID_HIT_SHADOW_CUTOUT) ∧
    ((updateShaderBindingTable gui n s (j : Int)).host.getD
        (j * NUM_RAYTYPES) default).header =
      (if !(gui.getD j default).useCutoutTexture
       then PROGRAM_ID_HIT_RADIANCE else PROGRAM_ID_HIT_RADIANCE_CUTOUT) ∧
    ((updateShaderBindingTable gui n s (j : Int)).host.getD
        (j * NUM_RAYTYPES + 1) default).header =
      (if !(gui.getD j default).useCutoutTexture
       then PROGRAM_ID_HIT_SHADOW else PROGRAM_ID_HIT_SHADOW_CUTOUT) ∧
    ((updateShaderBindingTable gui n s (j : Int)).host.getD
        (j * NUM_RAYTYPES) default).indices =
      (s.host.getD (j * NUM_RAYTYPES) default).indices ∧
    ((updateShaderBindingTable gui n s (j : Int)).host.getD
        (j * NUM_RAYTYPES) default).attributes =
      (s.host.getD (j * NUM_RAYTYPES) default).attributes ∧
    ((updateShaderBindingTable gui n s (j : Int)).host.getD
        (j * NUM_RAYTYPES) default).materialIndex =
      (s.host.getD (j * NUM_RAYTYPES) default).materialIndex ∧
    ((updateShaderBindingTable gui n s (j : Int)).host.getD
        (j * NUM_RAYTYPES) default).lightIndex =
      (s.host.getD (j * NUM_RAYTYPES) default).lightIndex ∧
    ((updateShaderBindingTable gui n s (j : Int)).host.getD
        (j * NUM_RAYTYPES + 1) default).indices =
      (s.host.getD (j * NUM_RAYTYPES + 1) default).indices ∧
    ((updateShaderBindingTable gui n s (j : Int)).host.getD
        (j * NUM_RAYTYPES + 1) default).attributes =
      (s.host.getD (j * NUM_RAYTYPES + 1) default).attributes ∧
    ((updateShaderBindingTable gui n s (j : Int)).host.getD
        (j * NUM_RAYTYPES + 1) default).materialIndex =
      (s.host.getD (j * NUM_RAYTYPES + 1) default).materialIndex ∧
    ((updateShaderBindingTable gui n s (j : Int)).host.getD
        (j * NUM_RAYTYPES + 1) default).lightIndex =
      (s.host.getD (j * NUM_RAYTYPES + 1) default).lightIndex := by
  have h64 : j < 2 ^ 64 := lt_of_lt_of_le (lt_of_lt_of_le hj hn) (by norm_num)
  have hs : (app missID lightID).sbtHost =
      sbtHitRecordsInit (app missID lightID).guiMaterialParameters
        (app missID lightID).geometries
        (app missID lightID).instances.length lightID missID := by
    cases lightID <;> rfl
  refine ⟨?_, ?_, ?_, ?_, ?_, ?_, ?_, ?_, ?_, ?_, ?_, ?_⟩
  · rw [hs, List.getD_eq_getElem?_getD,
        sbtHitRecordsInit_getElem?_rad _ _ _ lightID missID i hi]
    rfl
  · rw [hs, List.getD_eq_getElem?_getD,
        sbtHitRecordsInit_getElem?_shad _ _ _ lightID missID i hi]
    rfl
  all_goals first
    | (rw [updateSBT_host_getD_rad gui n s j hj h64 hlen])
    | (rw [updateSBT_host_getD_shad gui n s j hj h64 hlen])

theorem hitgroup_header_selection_witness :
    ((app 2 true).sbtHost.getD 6 default).header =
        PROGRAM_ID_HIT_RADIANCE_CUTOUT ∧
    ((updateShaderBindingTable (app 2 true).guiMaterialParameters 6
        ⟨(app 2 true).sbtHost, (app 2 true).sbtDevice, 0, 0⟩
        (3 : Int)).host.getD 7 default).header =
      PROGRAM_ID_HIT_SHADOW_CUTOUT ∧
    ((updateShaderBindingTable (app 2 true).guiMaterialParameters 6
        ⟨(app 2 true).sbtHost, (app 2 true).sbtDevice, 0, 0⟩
        (3 : Int)).host.getD 6 default).materialIndex =
      ((app 2 true).sbtHost.getD 6 default).materialIndex := by
  have h := hitgroup_header_selection 2 true 3 (by decide)
      (app 2 true).guiMaterialParameters 6
      ⟨(app 2 true).sbtHost, (app 2 true).sbtDevice, 0, 0⟩ 3
      (by decide) (by norm_num) (by decide)
  have hc : ((app 2 true).guiMaterialParameters.getD 3 default).useCutoutTexture
      = true := rfl
  refine ⟨?_, ?_, h.2.2.2.2.2.2.1⟩
  · have h1 := h.1
    rw [hc] at h1
    simpa using h1
  · have h4 := h.2.2.2.1
    rw [hc] at h4
    simpa using h4

/-- C4: `updateShaderBindingTable(i)` modifies only the records at indices
`[i * NUM_RAYTYPES, i * NUM_RAYTYPES + NUM_RAYTYPES)` of the host record
array and its device mirror — every record outside that range is identical
before and after — the payload of the two touched host records is
unchanged, and the two touched device records are copies of the updated
host records. -/
theorem update_locality (gui : List MaterialParameterGUI) (n : Nat)
    (s : SbtState) (i : Nat) (hin : i < n) (hn : n ≤ 2 ^ 63)
    (hlen : s.host.length = n * NUM_RAYTYPES)
    (hdev : s.device.length = n * NUM_RAYTYPES) :
    (∀ j, j < i * NUM_RAYTYPES ∨ i * NUM_RAYTYPES + NUM_RAYTYPES ≤ j →
      (updateShaderBindingTable gui n s (i : Int)).host.getD j default =
          s.host.getD j default ∧
      (updateShaderBindingTable gui n s (i : Int)).device.getD j default =
          s.device.getD j default) ∧
    ((updateShaderBindingTable gui n s (i : Int)).host.getD
        (i * NUM_RAYTYPES) default).indices =
      (s.host.getD (i * NUM_RAYTYPES) default).indices ∧
    ((updateShaderBindingTable gui n s (i : Int)).host.getD
        (i * NUM_RAYTYPES) default).attributes =
      (s.host.getD (i * NUM_RAYTYPES) default).attributes ∧
    ((updateShaderBindingTable gui n s (i : Int)).host.getD
        (i * NUM_RAYTYPES) default).materialIndex =
      (s.host.getD (i * NUM_RAYTYPES) default).materialIndex ∧
    ((updateShaderBindingTable gui n s (i : Int)).host.getD
        (i * NUM_RAYTYPES) default).lightIndex =
      (s.host.getD (i * NUM_RAYTYPES) default).lightIndex ∧
    ((updateShaderBindingTable gui n s (i : Int)).host.getD
        (i * NUM_RAYTYPES + 1) default).indices =
      (s.host.getD (i * NUM_RAYTYPES + 1) default).indices ∧
    ((updateShaderBindingTable gui n s (i : Int)).host.getD
        (i * NUM_RAYTYPES + 1) default).attributes =
      (s.host.getD (i * NUM_RAYTYPES + 1) default).attributes ∧
    ((updateShaderBindingTable gui n s (i : Int)).host.getD
        (i * NUM_RAYTYPES + 1) default).materialIndex =
      (s.host.getD (i * NUM_RAYTYPES + 1) default).materialIndex ∧
    ((updateShaderBindingTable gui n s (i : Int)).host.getD
        (i * NUM_RAYTYPES + 1) default).lightIndex =
      (s.host.getD (i * NUM_RAYTYPES + 1) default).lightIndex ∧
    ((updateShaderBindingTable gui n s (i : Int)).device.getD
        (i * NUM_RAYTYPES) default =
      (updateShaderBindingTable gui n s (i : Int)).host.getD
        (i * NUM_RAYTYPES) default) ∧
    ((updateShaderBindingTable gui n s (i : Int)).device.getD
        (i * NUM_RAYTYPES + 1) default =
      (updateShaderBindingTable gui n s (i : Int)).host.getD
        (i * NUM_RAYTYPES + 1) default) := by
  have h64 : i < 2 ^ 64 := lt_of_lt_of_le (lt_of_lt_of_le hin hn) (by norm_num)
  refine ⟨fun j hj => ⟨updateSBT_host_getD_other gui n s i j hin h64 hj,
      updateSBT_device_getD_other gui n s i j hin h64 hj⟩,
    ?_, ?_, ?_, ?_, ?_, ?_, ?_, ?_,
    (updateSBT_device_getD_touched gui n s i hin h64 hdev).1,
    (updateSBT_device_getD_touched gui n s i hin h64 hdev).2⟩
  all_goals first
    | (rw [updateSBT_host_getD_rad gui n s i hin h64 hlen])
    | (rw [updateSBT_host_getD_shad gui n s i hin h64 hlen])

theorem update_locality_witness :
    (updateShaderBindingTable (app 2 true).guiMaterialParameters 6
        ⟨(app 2 true).sbtHost, (app 2 true).sbtDevice, 0, 0⟩
        (3 : Int)).host.getD 0 default =
      (app 2 true).sbtHost.getD 0 default ∧
    (updateShaderBindingTable (app 2 true).guiMaterialParameters 6
        ⟨(app 2 true).sbtHost, (app 2 true).sbtDevice, 0, 0⟩
        (3 : Int)).device.getD 11 default =
      (app 2 true).sbtDevice.getD 11 default ∧
    ((updateShaderBindingTable (app 2 true).guiMaterialParameters 6
        ⟨(app 2 true).sbtHost, (app 2 true).sbtDevice, 0, 0⟩
        (3 : Int)).host.getD 6 default).lightIndex =
      ((app 2 true).sbtHost.getD 6 default).lightIndex := by
  have h := update_locality (app 2 true).guiMaterialParameters 6
      ⟨(app 2 true).sbtHost, (app 2 true).sbtDevice, 0, 0⟩ 3
      (by decide) (by norm_num) (by decide) (by decide)
  exact ⟨(h.1 0 (Or.inl (by decide))).1,
    (h.1 11 (Or.inr (by decide))).2,
    h.2.2.2.2.1⟩

/-- C10: calling `updateShaderBindingTable` with an instance index outside
`[0, instanceCount)` (including negative indices, which the `int`-to-
`size_t` conversion of the guard wraps to huge values) leaves the whole
state — host record array, device mirror, and the synchronization/copy
counters — unchanged. -/
theorem update_out_of_range (gui : List MaterialParameterGUI) (n : Nat)
    (s : SbtState) (inst : Int) (hlo : -(2 ^ 31) ≤ inst)
    (hhi : inst < 2 ^ 31) (hn : n ≤ 2 ^ 63)
    (hout : inst < 0 ∨ (n : Int) ≤ inst) :
    updateShaderBindingTable gui n s inst = s := by
  have hguard : ¬ intToSizeT inst < n := by
    rcases hout with hneg | hge
    · have h1 := intToSizeT_neg inst hlo hneg
      omega
    · simp only [intToSizeT]
      omega
  unfold updateShaderBindingTable
  rw [if_neg hguard]

theorem update_out_of_range_witness :
    updateShaderBindingTable [] 2 ⟨[], [], 0, 0⟩ 5 = ⟨[], [], 0, 0⟩ ∧
    updateShaderBindingTable [] 2 ⟨[], [], 0, 0⟩ (-1) = ⟨[], [], 0, 0⟩ :=
  ⟨update_out_of_range [] 2 ⟨[], [], 0, 0⟩ 5 (by norm_num) (by norm_num)
      (by norm_num) (Or.inr (by norm_num)),
   update_out_of_range [] 2 ⟨[], [], 0, 0⟩ (-1) (by norm_num) (by norm_num)
      (by norm_num) (Or.inl (by norm_num))⟩

end IntroRuntime
